import Mathlib

/-
Shallow embedding of the WebSocket duplex OPUS audio client (src/main.py).

Pure functions model the operations the specification talks about:
queue.Queue(maxsize=...).put on the capture path, collections.deque(maxlen=...)
on the playback path, the send-loop pacing cycle, the keepalive loop body,
the connection callbacks (_on_open, _on_error, _on_close, _cleanup), the
reconnect loop of AudioClient.run, AudioIO.play_output and
AudioClient._handle_control.  Time is modelled in integral milliseconds;
external effects (the codec, the transport send, the device write) are
modelled by explicit success/failure parameters, matching how the source
consumes them (encode returning None on failure, ws.send raising, the
output-stream write raising OSError).
-/

set_option maxRecDepth 8000

namespace AudioWS

/- Global configuration, src/main.py lines 17-23. -/

def SAMPLE_RATE : Nat := 24000

def CHANNELS : Nat := 1

def FRAME_MS : Nat := 60

def CHUNK : Nat := SAMPLE_RATE * FRAME_MS / 1000

def MAX_QUEUE_SIZE : Nat := 30

/-- Result of queue.Queue(maxsize=m).put with the default block=True
(src/main.py lines 73 and 101): when the queue has free capacity the item is
appended at the back; when the queue is full the call does not return — the
producer blocks until a consumer frees a slot.  `blocked` records the queue
contents at the moment the producer blocks. -/
inductive PutResult (α : Type) where
  | enqueued (q : List α)
  | blocked (q : List α)
deriving DecidableEq, Repr

def PutResult.contents {α : Type} : PutResult α → List α
  | .enqueued q => q
  | .blocked q => q

/-- queue.Queue(maxsize=m).put(f): block=True semantics. -/
def queue_put {α : Type} (maxsize : Nat) (q : List α) (f : α) : PutResult α :=
  if q.length < maxsize then .enqueued (q ++ [f]) else .blocked q

/-- AudioIO.input_queue = queue.Queue(maxsize=MAX_QUEUE_SIZE), line 73; the
capture callback offers via input_queue.put(in_data), line 101. -/
def input_put {α : Type} : List α → α → PutResult α :=
  queue_put MAX_QUEUE_SIZE

/-- Offer a whole sequence of items one by one with no concurrent consumer;
stops at the first offer that blocks.  Returns the final queue contents and
whether the producer ended up blocked. -/
def queue_put_all {α : Type} (maxsize : Nat) : List α → List α → List α × Bool
  | q, [] => (q, false)
  | q, f :: fs =>
    match queue_put maxsize q f with
    | .enqueued q2 => queue_put_all maxsize q2 fs
    | .blocked q2 => (q2, true)

def input_put_all {α : Type} : List α → List α → List α × Bool :=
  queue_put_all MAX_QUEUE_SIZE

/-- collections.deque(maxlen=m).append semantics: appending to a full deque
silently discards the element at the opposite (oldest) end.  Models the
output_buffer of AudioIO (line 74). -/
def deque_push {α : Type} (maxlen : Nat) (q : List α) (x : α) : List α :=
  if q.length < maxlen then q ++ [x]
  else if maxlen = 0 then q
  else q.tail ++ [x]

/-- deque.extend iterates its argument and appends element by element
(so output_buffer.extend(pcm_data) appends the PCM block byte by byte,
line 114). -/
def deque_extend {α : Type} (maxlen : Nat) (q : List α) (xs : List α) : List α :=
  xs.foldl (deque_push maxlen) q

/- ------------------------------------------------------------------ -/
/- FramePacer: AudioClient._send_loop, lines 167-185.                  -/
/- ------------------------------------------------------------------ -/

/-- State carried across iterations of _send_loop: last_send (line 169,
updated line 182) and the pending capture frames in input_queue, drained via
get_input_frame / get_nowait (lines 104-109, 179). -/
structure PacerState where
  lastSend : Nat
  queue : List (List Nat)
deriving DecidableEq, Repr

/-- Outcome of one _send_loop iteration: either the loop proceeds to the next
iteration (`cycled`, recording the state and the frame sent, if any), or the
iteration hit `except Exception ... break` and the loop exits (`exited`). -/
inductive CycleOutcome where
  | cycled (s : PacerState) (sent : Option (List Nat))
  | exited (s : PacerState)
deriving DecidableEq, Repr

/-- Lines 173-176: elapsed = now - last_send; sleep_time = FRAME_MS - elapsed;
sleep only if positive.  Natural subtraction makes this max(0, ...) exactly. -/
def sleep_time (now lastSend : Nat) : Nat :=
  FRAME_MS - (now - lastSend)

/-- One iteration of _send_loop (lines 170-185), entered at time `now`.
`enc` is the codec boundary: OpusCodec.encode returns the encoded bytes or
None after an OpusError (lines 53-59).  `sendOk o` tells whether
ws.send(o, OPCODE_BINARY) returns normally; when it raises, the
`except Exception` handler logs and breaks out of the loop (lines 183-185).
The returned Nat is the time after the pacing sleep, at which the send (if
any) happens. -/
def send_loop_cycle (enc : List Nat → Option (List Nat)) (sendOk : List Nat → Bool)
    (now : Nat) (s : PacerState) : Nat × CycleOutcome :=
  let t := now + sleep_time now s.lastSend
  match s.queue with
  | [] => (t, .cycled s none)
  | f :: rest =>
    match enc f with
    | none => (t, .cycled { lastSend := s.lastSend, queue := rest } none)
    | some o =>
      if sendOk o then (t, .cycled { lastSend := t, queue := rest } (some o))
      else (t, .exited { lastSend := s.lastSend, queue := rest })

/- ------------------------------------------------------------------ -/
/- ConnectionLifecycle: AudioClient callbacks and run, lines 154-256.  -/
/- ------------------------------------------------------------------ -/

/-- Observable client state: the is_running flag (line 135), the retry
counter local to run (line 239), how many times AudioIO.release has been
invoked (line 232), and whether ws.close has been called (line 234). -/
structure ClientState where
  is_running : Bool
  retries : Nat
  releaseCount : Nat
  wsClosed : Bool
deriving DecidableEq, Repr

/-- _on_open, lines 154-165: sets is_running = True and starts the send and
keepalive threads.  It touches no retry state. -/
def on_open (s : ClientState) : ClientState :=
  { s with is_running := true }

/-- One iteration of _keepalive (lines 187-194): while is_running, sleep
ping_interval then try ws.send PING; on exception the handler only does
logger.warning and the loop continues.  Returns the state afterwards and
whether the loop keeps running. -/
def keepalive_iter (s : ClientState) (sendOk : Bool) : ClientState × Bool :=
  if s.is_running then
    match sendOk with
    | true => (s, true)
    | false => (s, true)
  else (s, false)

/-- _on_error, lines 219-222: logs and sets is_running = False.  It does not
run _cleanup. -/
def on_error (s : ClientState) : ClientState :=
  { s with is_running := false }

/-- _cleanup, lines 230-235: unconditionally releases the audio device and
closes the websocket; there is no already-cleaned guard, so every invocation
releases again. -/
def cleanup (s : ClientState) : ClientState :=
  { s with releaseCount := s.releaseCount + 1, wsClosed := true }

/-- _on_close, lines 224-228: clears is_running and calls _cleanup. -/
def on_close (s : ClientState) : ClientState :=
  cleanup { s with is_running := false }

/-- Line 252: delay = min(2 ** retries, 30), computed after retries was
incremented for the failure just observed. -/
def backoff_delay (k : Nat) : Nat :=
  min (2 ^ k) 30

/-- The retry loop of run (lines 237-256) under the assumption that every
run_forever attempt fails immediately by raising: while retries < max_retries
an attempt is made and fails, retries is incremented and backoff_delay
retries is slept.  Returns (number of attempts made, delays slept in order).
`fuel` bounds the recursion; run_all_fail supplies fuel = max_retries, enough
for the loop to reach its exhaustion branch (line 255-256). -/
def run_rec (retries max_retries : Nat) : Nat → Nat × List Nat
  | 0 => (0, [])
  | fuel + 1 =>
    if retries < max_retries then
      let p := run_rec (retries + 1) max_retries fuel
      (p.1 + 1, backoff_delay (retries + 1) :: p.2)
    else (0, [])

def run_all_fail (max_retries : Nat) : Nat × List Nat :=
  run_rec 0 max_retries max_retries

/- ------------------------------------------------------------------ -/
/- Playback path: AudioIO.play_output and _handle_control.             -/
/- ------------------------------------------------------------------ -/

/-- Playback-side state: output_buffer (deque of individual bytes, line 74)
and the sequence of PCM blocks written to the device output stream. -/
structure AudioState where
  output_buffer : List Nat
  played : List (List Nat)
deriving DecidableEq, Repr

/-- AudioIO.play_output, lines 111-118: if pcm_data is non-empty, extend the
output_buffer with it byte by byte and write the whole block to the output
stream.  `writeOk` is false when output_stream.write raises OSError, which is
only logged (lines 117-118). -/
def play_output (writeOk : Bool) (a : AudioState) (pcm : List Nat) : AudioState :=
  if pcm = [] then a
  else
    { output_buffer := deque_extend MAX_QUEUE_SIZE a.output_buffer pcm,
      played := if writeOk then a.played ++ [pcm] else a.played }

/-- An inbound text transport message as _handle_control sees it after
json.loads (lines 208-217): either the parse raises JSONDecodeError, or it
yields a non-object value (on which data.get raises AttributeError), or it
yields an object, modelled as its key-value pairs. -/
inductive CtrlMsg where
  | invalidJson
  | jsonNonObject
  | jsonObject (fields : List (String × String))
deriving DecidableEq, Repr

/-- AudioClient._handle_control, lines 208-217.  Only json.JSONDecodeError is
caught (line 216); data.get('type') == 'tts' is total on objects, but
data['state'] raises KeyError when the key is absent, and the subscript is
evaluated whenever the type is 'tts'.  An Except.error names the Python
exception that escapes the handler. -/
def handle_control (a : AudioState) (m : CtrlMsg) : Except String AudioState :=
  match m with
  | .invalidJson => .ok a
  | .jsonNonObject => .error "AttributeError"
  | .jsonObject fields =>
    if fields.lookup "type" = some "tts" then
      match fields.lookup "state" with
      | some st => if st = "stop" then .ok { a with output_buffer := [] } else .ok a
      | none => .error "KeyError"
    else .ok a

/- ------------------------------------------------------------------ -/
/- Helper lemmas about the bounded-queue models.                       -/
/- ------------------------------------------------------------------ -/

/-- A deque push never grows the deque past its maxlen. -/
theorem deque_push_length_le {α : Type} (m : Nat) (q : List α) (x : α)
    (h : q.length ≤ m) : (deque_push m q x).length ≤ m := by
  unfold deque_push
  by_cases h1 : q.length < m
  · rw [if_pos h1]
    simp only [List.length_append, List.length_cons, List.length_nil]
    omega
  · rw [if_neg h1]
    by_cases h0 : m = 0
    · rw [if_pos h0]
      exact h
    · rw [if_neg h0]
      simp only [List.length_append, List.length_tail, List.length_cons,
        List.length_nil]
      omega

/-- deque_extend preserves the maxlen bound. -/
theorem deque_extend_length_le {α : Type} (m : Nat) (xs : List α) :
    ∀ q : List α, q.length ≤ m → (deque_extend m q xs).length ≤ m := by
  induction xs with
  | nil => intro q hq; simpa [deque_extend] using hq
  | cons x t ih =>
    intro q hq
    have hstep : deque_extend m q (x :: t) = deque_extend m (deque_push m q x) t := rfl
    rw [hstep]
    exact ih _ (deque_push_length_le m q x hq)

/-- Extending a deque that respects its maxlen keeps exactly the newest
maxlen items of the combined arrival sequence, in arrival order. -/
theorem deque_extend_drop {α : Type} (m : Nat) (hm : 0 < m) (xs : List α) :
    ∀ q : List α, q.length ≤ m →
      deque_extend m q xs = (q ++ xs).drop (q.length + xs.length - m) := by
  induction xs with
  | nil =>
    intro q hq
    have e : q.length - m = 0 := by omega
    simp [deque_extend, e]
  | cons x t ih =>
    intro q hq
    have hstep : deque_extend m q (x :: t) = deque_extend m (deque_push m q x) t := rfl
    rw [hstep, ih (deque_push m q x) (deque_push_length_le m q x hq)]
    by_cases h1 : q.length < m
    · have hp : deque_push m q x = q ++ [x] := by simp [deque_push, h1]
      rw [hp]
      have e : (q ++ [x]).length + t.length - m = q.length + (x :: t).length - m := by
        simp
        omega
      rw [e, List.append_assoc]
      simp
    · have hm0 : m ≠ 0 := by omega
      have hql : q.length = m := by omega
      have hp : deque_push m q x = q.tail ++ [x] := by simp [deque_push, h1, hm0]
      rw [hp]
      cases q with
      | nil =>
        exfalso
        simp at hql
        omega
      | cons y q2 =>
        have hq2 : q2.length + 1 = m := by simpa using hql
        have e1 : ((y :: q2).tail ++ [x]).length + t.length - m = t.length := by
          simp
          omega
        have e2 : (y :: q2).length + (x :: t).length - m = t.length + 1 := by
          simp
          omega
        rw [e1, e2, List.tail_cons]
        simp only [List.cons_append, List.append_assoc, List.singleton_append,
          List.nil_append, List.drop_succ_cons]

/-- Offering more items than remaining capacity to a blocking bounded queue
accepts items only up to capacity and then blocks the producer; nothing is
dropped and the accepted items keep arrival order. -/
theorem queue_put_all_overflow {α : Type} (m : Nat) (xs : List α) :
    ∀ q : List α, q.length ≤ m → m < q.length + xs.length →
      queue_put_all m q xs = (q ++ xs.take (m - q.length), true) := by
  induction xs with
  | nil =>
    intro q hq hov
    simp at hov
    exact absurd hov (by omega)
  | cons f fs ih =>
    intro q hq hov
    by_cases h1 : q.length < m
    · have hput : queue_put m q f = PutResult.enqueued (q ++ [f]) := by
        simp [queue_put, h1]
      simp only [queue_put_all, hput]
      rw [ih (q ++ [f]) (by simp; omega) (by simp at hov ⊢; omega)]
      have e : m - q.length = (m - (q ++ [f]).length) + 1 := by
        simp
        omega
      rw [e, List.take_succ_cons, List.append_assoc]
      simp
    · have hput : queue_put m q f = PutResult.blocked q := by
        simp [queue_put, h1]
      simp only [queue_put_all, hput]
      have e : m - q.length = 0 := by omega
      simp [e]

/- ------------------------------------------------------------------ -/
/- Claims.                                                             -/
/- ------------------------------------------------------------------ -/

/-- C1 counterexample: offering a frame to the full input queue does not
return with the queue unchanged (the claimed no-op drop); the blocking put of
queue.Queue makes the producer block. -/
theorem C1_counterexample :
    input_put (List.replicate MAX_QUEUE_SIZE 0) 7
      = PutResult.blocked (List.replicate MAX_QUEUE_SIZE 0) ∧
    input_put (List.replicate MAX_QUEUE_SIZE 0) 7
      ≠ PutResult.enqueued (List.replicate MAX_QUEUE_SIZE 0) := by
  decide

/-- C1 (amended): offering a capture frame to the input queue never pushes
its size past the configured capacity of 30; but when the queue is already
full the blocking put of queue.Queue(maxsize=30) blocks the producer (with
the queue contents unchanged at that moment) instead of returning with a
no-op drop, while a non-full queue accepts the frame at the back. -/
theorem C1_amended (q : List Nat) (f : Nat) (h : q.length ≤ MAX_QUEUE_SIZE) :
    (input_put q f).contents.length ≤ MAX_QUEUE_SIZE ∧
    (q.length = MAX_QUEUE_SIZE → input_put q f = PutResult.blocked q) ∧
    (q.length < MAX_QUEUE_SIZE → input_put q f = PutResult.enqueued (q ++ [f])) := by
  by_cases h1 : q.length < MAX_QUEUE_SIZE
  · refine ⟨?_, fun h2 => absurd h2 (by omega), fun _ => ?_⟩
    · simp [input_put, queue_put, h1, PutResult.contents]
      omega
    · simp [input_put, queue_put, h1]
  · have h2 : q.length = MAX_QUEUE_SIZE := by omega
    refine ⟨?_, fun _ => ?_, fun h3 => absurd h3 h1⟩
    · simp [input_put, queue_put, h1, PutResult.contents]
      exact h
    · simp [input_put, queue_put, h1]

theorem C1_witness :
    (List.replicate MAX_QUEUE_SIZE 2).length ≤ MAX_QUEUE_SIZE ∧
    ((input_put (List.replicate MAX_QUEUE_SIZE 2) 9).contents.length ≤ MAX_QUEUE_SIZE ∧
     ((List.replicate MAX_QUEUE_SIZE 2).length = MAX_QUEUE_SIZE →
        input_put (List.replicate MAX_QUEUE_SIZE 2) 9
          = PutResult.blocked (List.replicate MAX_QUEUE_SIZE 2)) ∧
     ((List.replicate MAX_QUEUE_SIZE 2).length < MAX_QUEUE_SIZE →
        input_put (List.replicate MAX_QUEUE_SIZE 2) 9
          = PutResult.enqueued (List.replicate MAX_QUEUE_SIZE 2 ++ [9]))) :=
  ⟨by decide, C1_amended (List.replicate MAX_QUEUE_SIZE 2) 9 (by decide)⟩

/-- C2 counterexample: a keepalive send failure while the client is running
leaves the client unchanged and the keepalive loop continuing — is_running
stays true and no cleanup (audio release, transport close) runs, contrary to
the claimed transition to Failed with loops stopped and cleanup run. -/
theorem C2_counterexample :
    keepalive_iter ⟨true, 0, 0, false⟩ false = (⟨true, 0, 0, false⟩, true) ∧
    (keepalive_iter ⟨true, 0, 0, false⟩ false).1.is_running = true ∧
    (keepalive_iter ⟨true, 0, 0, false⟩ false).1.releaseCount = 0 ∧
    (keepalive_iter ⟨true, 0, 0, false⟩ false).1.wsClosed = false := by
  decide

/-- C2 (amended): a keepalive send failure is only logged as a warning — the
keepalive loop continues with the client state unchanged, stopping neither
the send loop nor itself, and running no cleanup.  By contrast, a
transport-reported error (_on_error) stops both loops by clearing is_running
but also runs no cleanup; cleanup happens only in the close callback. -/
theorem C2_amended (s : ClientState) :
    keepalive_iter s false = (s, s.is_running) ∧
    (on_error s).is_running = false ∧
    (on_error s).releaseCount = s.releaseCount ∧
    (on_error s).wsClosed = s.wsClosed := by
  obtain ⟨r, rt, rc, wc⟩ := s
  cases r <;> simp [keepalive_iter, on_error]

/-- C3 counterexample: 31 items offered to the playback-side deque of
capacity 30 retain the NEWEST 30 (items 1..30), not the oldest-arrival 30
(items 0..29) the claim states. -/
theorem C3_counterexample :
    deque_extend MAX_QUEUE_SIZE ([] : List Nat) (List.range 31)
      = (List.range 31).drop 1 ∧
    deque_extend MAX_QUEUE_SIZE ([] : List Nat) (List.range 31)
      ≠ (List.range 31).take MAX_QUEUE_SIZE := by
  decide

/-- C3 (amended): for N items offered to the capacity-30 structures with
N > 30: the playback-side deque retains exactly the newest 30 in original
relative order, dropping the oldest N - 30; the capture-side input queue
drops nothing — it accepts the first 30 in order and then blocks the
producer. -/
theorem C3_amended (xs : List Nat) (h : MAX_QUEUE_SIZE < xs.length) :
    deque_extend MAX_QUEUE_SIZE ([] : List Nat) xs
      = xs.drop (xs.length - MAX_QUEUE_SIZE) ∧
    (deque_extend MAX_QUEUE_SIZE ([] : List Nat) xs).length = MAX_QUEUE_SIZE ∧
    input_put_all ([] : List Nat) xs = (xs.take MAX_QUEUE_SIZE, true) := by
  have h1 : deque_extend MAX_QUEUE_SIZE ([] : List Nat) xs
      = xs.drop (xs.length - MAX_QUEUE_SIZE) := by
    have h2 := deque_extend_drop MAX_QUEUE_SIZE (by decide) xs ([] : List Nat) (by simp)
    simpa using h2
  refine ⟨h1, ?_, ?_⟩
  · rw [h1, List.length_drop]
    omega
  · have h3 := queue_put_all_overflow MAX_QUEUE_SIZE xs ([] : List Nat)
      (by simp) (by simpa using h)
    simpa [input_put_all] using h3

theorem C3_witness :
    MAX_QUEUE_SIZE < (List.range 40).length ∧
    (deque_extend MAX_QUEUE_SIZE ([] : List Nat) (List.range 40)
        = (List.range 40).drop ((List.range 40).length - MAX_QUEUE_SIZE) ∧
     (deque_extend MAX_QUEUE_SIZE ([] : List Nat) (List.range 40)).length
        = MAX_QUEUE_SIZE ∧
     input_put_all ([] : List Nat) (List.range 40)
        = ((List.range 40).take MAX_QUEUE_SIZE, true)) :=
  ⟨by decide, C3_amended (List.range 40) (by decide)⟩

/-- C4: with maxRetries = 5 and every run_forever attempt failing
immediately, the run loop makes exactly 5 attempts and sleeps the delays
min(2^1,30), ..., min(2^5,30) = 2, 4, 8, 16, 30 seconds in that order, after
which retries = max_retries and the loop body makes no further attempt
(terminal failure, lines 255-256). -/
theorem C4_thm :
    run_all_fail 5 = (5, [2, 4, 8, 16, 30]) ∧
    [backoff_delay 1, backoff_delay 2, backoff_delay 3, backoff_delay 4,
      backoff_delay 5] = [2, 4, 8, 16, 30] ∧
    (∀ fuel, run_rec 5 5 fuel = (0, [])) :=
  ⟨by decide, by decide, fun fuel => by cases fuel <;> rfl⟩

/-- C5 counterexample: a well-formed JSON control message of type tts that
lacks the state field makes _handle_control raise KeyError past its
boundary — data['state'] is unguarded and only JSONDecodeError is caught. -/
theorem C5_counterexample :
    handle_control ⟨[1, 2, 3], [[4]]⟩ (CtrlMsg.jsonObject [("type", "tts")])
      = Except.error "KeyError" := by
  rfl

/-- C5 (amended): invalid JSON is logged and ignored (the handler returns
normally with the state unchanged), and a recognized tts/stop message clears
the output buffer; but the handler catches only json.JSONDecodeError, so a
JSON object of type tts without a state field escapes with KeyError, and
non-object JSON escapes with AttributeError from data.get. -/
theorem C5_amended (a : AudioState) (rest : List (String × String)) :
    handle_control a CtrlMsg.invalidJson = Except.ok a ∧
    handle_control a (CtrlMsg.jsonObject (("type", "tts") :: ("state", "stop") :: rest))
      = Except.ok { output_buffer := [], played := a.played } ∧
    handle_control a (CtrlMsg.jsonObject [("type", "tts")])
      = Except.error "KeyError" ∧
    handle_control a (CtrlMsg.jsonObject [("type", "hello")]) = Except.ok a ∧
    handle_control a CtrlMsg.jsonNonObject = Except.error "AttributeError" :=
  ⟨rfl, rfl, rfl, rfl, rfl⟩

/-- C6 counterexample: a single send failure does not keep the send loop
running — the except handler breaks out of the loop (the outcome is exited,
not a cycled continuation with the frame dropped). -/
theorem C6_counterexample :
    send_loop_cycle some (fun _ => false) 60 ⟨0, [[1]]⟩
      = (60, CycleOutcome.exited ⟨0, []⟩) ∧
    send_loop_cycle some (fun _ => false) 60 ⟨0, [[1]]⟩
      ≠ (60, CycleOutcome.cycled ⟨0, []⟩ none) := by
  decide

/-- C6 (amended): an encode failure is logged, that one frame is dropped and
the send loop continues with its next cycle; but a send failure, after
logging, terminates the send loop (break in the except handler) instead of
continuing the stream. -/
theorem C6_amended (sendOk : List Nat → Bool) (now ls : Nat) (f o : List Nat)
    (rest : List (List Nat)) :
    send_loop_cycle (fun _ => none) sendOk now ⟨ls, f :: rest⟩
      = (now + sleep_time now ls, CycleOutcome.cycled ⟨ls, rest⟩ none) ∧
    send_loop_cycle (fun _ => some o) (fun _ => false) now ⟨ls, f :: rest⟩
      = (now + sleep_time now ls, CycleOutcome.exited ⟨ls, rest⟩) :=
  ⟨rfl, rfl⟩

/-- C7 counterexample: the transition into Open (_on_open) leaves the retry
counter unchanged — entering Open with 3 accumulated retries still shows 3,
not the claimed reset to 0. -/
theorem C7_counterexample :
    (on_open ⟨false, 3, 0, false⟩).retries = 3 ∧
    (on_open ⟨false, 3, 0, false⟩).retries ≠ 0 := by
  decide

/-- C7 (amended): on transition into Open the client only sets is_running
and starts the send/keepalive threads; the retry counter (a local of run
that only ever increments) is not touched, so a later failure does not
restart the backoff schedule from the beginning. -/
theorem C7_amended (s : ClientState) :
    (on_open s).retries = s.retries ∧
    (on_open s).is_running = true ∧
    (on_open s).releaseCount = s.releaseCount ∧
    (on_open s).wsClosed = s.wsClosed := by
  obtain ⟨r, rt, rc, wc⟩ := s
  simp [on_open]

/-- C8: each send-loop cycle sleeps exactly max(0, period - elapsed) with
elapsed = now - lastSend, wakes at t = now + that sleep, and t is always at
least one full 60 ms period after the previous successful send; an empty
input queue skips the cycle with the state unchanged; an encode failure
drops exactly that frame with lastSend unchanged (no retry); a successful
send removes exactly that one frame and sets lastSend to the send time t;
a failed send leaves lastSend unchanged.  Hence at most one frame is sent
per 60 ms period. -/
theorem C8_thm (enc : List Nat → Option (List Nat)) (sendOk : List Nat → Bool)
    (now ls : Nat) (f : List Nat) (rest : List (List Nat)) (h : ls ≤ now) :
    ((sleep_time now ls : Int) = max 0 ((FRAME_MS : Int) - ((now : Int) - (ls : Int)))) ∧
    ls + FRAME_MS ≤ now + sleep_time now ls ∧
    send_loop_cycle enc sendOk now ⟨ls, []⟩
      = (now + sleep_time now ls, CycleOutcome.cycled ⟨ls, []⟩ none) ∧
    (enc f = none →
      send_loop_cycle enc sendOk now ⟨ls, f :: rest⟩
        = (now + sleep_time now ls, CycleOutcome.cycled ⟨ls, rest⟩ none)) ∧
    (∀ o, enc f = some o → sendOk o = true →
      send_loop_cycle enc sendOk now ⟨ls, f :: rest⟩
        = (now + sleep_time now ls,
           CycleOutcome.cycled ⟨now + sleep_time now ls, rest⟩ (some o))) ∧
    (∀ o, enc f = some o → sendOk o = false →
      send_loop_cycle enc sendOk now ⟨ls, f :: rest⟩
        = (now + sleep_time now ls, CycleOutcome.exited ⟨ls, rest⟩)) := by
  refine ⟨?_, ?_, rfl, ?_, ?_, ?_⟩
  · simp only [sleep_time, FRAME_MS]
    omega
  · simp only [sleep_time, FRAME_MS]
    omega
  · intro henc
    simp [send_loop_cycle, henc]
  · intro o henc hsend
    simp [send_loop_cycle, henc, hsend]
  · intro o henc hsend
    simp [send_loop_cycle, henc, hsend]

theorem C8_witness :
    80 ≤ 100 ∧
    (((sleep_time 100 80 : Int)
        = max 0 ((FRAME_MS : Int) - ((100 : Int) - (80 : Int)))) ∧
     80 + FRAME_MS ≤ 100 + sleep_time 100 80 ∧
     send_loop_cycle some (fun _ => true) 100 ⟨80, []⟩
        = (100 + sleep_time 100 80, CycleOutcome.cycled ⟨80, []⟩ none) ∧
     (some [1] = none →
        send_loop_cycle some (fun _ => true) 100 ⟨80, [1] :: [[2]]⟩
          = (100 + sleep_time 100 80, CycleOutcome.cycled ⟨80, [[2]]⟩ none)) ∧
     (∀ o, some [1] = some o → (fun _ => true) o = true →
        send_loop_cycle some (fun _ => true) 100 ⟨80, [1] :: [[2]]⟩
          = (100 + sleep_time 100 80,
             CycleOutcome.cycled ⟨100 + sleep_time 100 80, [[2]]⟩ (some o))) ∧
     (∀ o, some [1] = some o → (fun _ => true) o = false →
        send_loop_cycle some (fun _ => true) 100 ⟨80, [1] :: [[2]]⟩
          = (100 + sleep_time 100 80, CycleOutcome.exited ⟨80, [[2]]⟩))) :=
  ⟨by decide, C8_thm some (fun _ => true) 100 80 [1] [[2]] (by decide)⟩

/-- C9 counterexample: cleanup is unguarded, so a close initiated through
the transport close callback followed by the interrupt handler calling
_cleanup again releases the audio device twice, not exactly once. -/
theorem C9_counterexample :
    (cleanup (on_close ⟨true, 0, 0, false⟩)).releaseCount = 2 ∧
    (cleanup (on_close ⟨true, 0, 0, false⟩)).releaseCount ≠ 1 := by
  decide

/-- C9 (amended): _cleanup has no already-cleaned guard — every invocation
releases the audio device again (and closes the transport); the close
callback runs one such cleanup.  Cleanup therefore runs once per initiating
path, not exactly once per execution, and a second path re-releases already
released resources. -/
theorem C9_amended (s : ClientState) :
    (cleanup s).releaseCount = s.releaseCount + 1 ∧
    (on_close s).releaseCount = s.releaseCount + 1 ∧
    (on_close s).is_running = false ∧
    (cleanup s).wsClosed = true := by
  obtain ⟨r, rt, rc, wc⟩ := s
  simp [cleanup, on_close]

/-- C10: the playback output buffer is write-only for the playback path —
the blocks written to the device by play_output are independent of the
buffer contents; the buffer holds at most 30 individual bytes, fewer than
the 2 * CHUNK = 2880 bytes of one decoded frame; and the tts/stop control
message empties the buffer while leaving the device-played sequence
untouched.  Hence clearing the buffer removes no audio from what is
played. -/
theorem C10_thm (writeOk : Bool) (a1 a2 : AudioState) (pcm : List Nat)
    (hb : a1.output_buffer.length ≤ MAX_QUEUE_SIZE) (hp : a1.played = a2.played) :
    (play_output writeOk a1 pcm).played = (play_output writeOk a2 pcm).played ∧
    (play_output writeOk a1 pcm).output_buffer.length ≤ MAX_QUEUE_SIZE ∧
    MAX_QUEUE_SIZE < 2 * CHUNK ∧
    handle_control a1 (CtrlMsg.jsonObject [("type", "tts"), ("state", "stop")])
      = Except.ok { output_buffer := [], played := a1.played } := by
  refine ⟨?_, ?_, by decide, rfl⟩
  · by_cases hn : pcm = [] <;> simp [play_output, hn, hp]
  · by_cases hn : pcm = []
    · simpa [play_output, hn] using hb
    · simp [play_output, hn]
      exact deque_extend_length_le MAX_QUEUE_SIZE pcm a1.output_buffer hb

theorem C10_witness :
    (⟨[1, 2], [[3]]⟩ : AudioState).output_buffer.length ≤ MAX_QUEUE_SIZE ∧
    (⟨[1, 2], [[3]]⟩ : AudioState).played = (⟨[], [[3]]⟩ : AudioState).played ∧
    ((play_output true ⟨[1, 2], [[3]]⟩ [9]).played
        = (play_output true ⟨[], [[3]]⟩ [9]).played ∧
     (play_output true ⟨[1, 2], [[3]]⟩ [9]).output_buffer.length ≤ MAX_QUEUE_SIZE ∧
     MAX_QUEUE_SIZE < 2 * CHUNK ∧
     handle_control ⟨[1, 2], [[3]]⟩ (CtrlMsg.jsonObject [("type", "tts"), ("state", "stop")])
        = Except.ok { output_buffer := [], played := (⟨[1, 2], [[3]]⟩ : AudioState).played }) :=
  ⟨by decide, by decide, C10_thm true ⟨[1, 2], [[3]]⟩ ⟨[], [[3]]⟩ [9] (by decide) (by decide)⟩

end AudioWS
